import Mathlib

/-!
# Verification of the Cerbo EHR Dashboard front end

Shallow embedding of the front end's date arithmetic, formatting utilities,
HTTP-interceptor behaviour, badge variant mapping, list-page state machine and
dashboard statistics aggregation, together with theorems settling the frozen
claims about them.

Conventions of the embedding:

* JavaScript `Date` values, as used by the appointments page, are modelled by
  their civil calendar components (year, month 1..12, day of month), ignoring
  time of day and time zone (the page only ever manipulates and serialises the
  date part).  `Date.prototype.setDate(n)` sets the day of month to `n` with
  calendar normalisation, i.e. it moves the timestamp to "first of the current
  month plus `n - 1` days"; this is modelled exactly via conversions between
  civil dates and day numbers (days since the Unix epoch 1970-01-01), using
  the standard civil-from-days / days-from-civil algorithms.
* Strings are Lean `String`s; JavaScript truthiness of a string is "not empty".
* Machine numbers are modelled as `Int` (all the code's arithmetic is small
  integer arithmetic on calendar components, HTTP statuses and counters).
-/

namespace EHR

/-- A civil calendar date as manipulated by the appointments page: the
(year, month, day-of-month) components of a JavaScript `Date`, with `month`
in 1..12 (the code only uses `getDate`/`setDate`/`getDay`, whose semantics
do not depend on JavaScript's 0-based `getMonth` representation). -/
structure JSDate where
  year : Int
  month : Int
  day : Int
deriving DecidableEq, Repr

/-- Number of days from the Unix epoch 1970-01-01 to the civil date
`(y, m, d)` (Howard Hinnant's `days_from_civil` algorithm, valid for all
proleptic Gregorian dates). -/
def daysFromCivil (y m d : Int) : Int :=
  let yAdj := y - (if m ≤ 2 then 1 else 0)
  let era := Int.ediv yAdj 400
  let yoe := yAdj - era * 400
  let doy := Int.ediv (153 * (m + (if 2 < m then -3 else 9)) + 2) 5 + d - 1
  let doe := yoe * 365 + Int.ediv yoe 4 - Int.ediv yoe 100 + doy
  era * 146097 + doe - 719468

/-- Day number of a `JSDate` (days since the Unix epoch). -/
def JSDate.toDays (dt : JSDate) : Int :=
  daysFromCivil dt.year dt.month dt.day

/-- The civil calendar date of day number `z` (Howard Hinnant's
`civil_from_days` algorithm, the inverse of `daysFromCivil`). -/
def civilFromDays (z : Int) : JSDate :=
  let z' := z + 719468
  let era := Int.ediv z' 146097
  let doe := z' - era * 146097
  let yoe := Int.ediv (doe - Int.ediv doe 1460 + Int.ediv doe 36524 - Int.ediv doe 146096) 365
  let y := yoe + era * 400
  let doy := doe - (365 * yoe + Int.ediv yoe 4 - Int.ediv yoe 100)
  let mp := Int.ediv (5 * doy + 2) 153
  let d := doy - Int.ediv (153 * mp + 2) 5 + 1
  let m := mp + (if mp < 10 then 3 else -9)
  ⟨y + (if m ≤ 2 then 1 else 0), m, d⟩

/-- JavaScript `Date.prototype.setDate`: set the day of month to `n`,
normalising out-of-range values through the calendar (the timestamp becomes
"first day of the current month plus `n - 1` days"). -/
def JSDate.setDate (dt : JSDate) (n : Int) : JSDate :=
  civilFromDays (daysFromCivil dt.year dt.month 1 + n - 1)

/-- JavaScript `Date.prototype.getDay`: day of week, 0 = Sunday .. 6 =
Saturday (1970-01-01 was a Thursday, day 4). -/
def JSDate.getDay (dt : JSDate) : Int :=
  Int.emod (dt.toDays + 4) 7

/-- `daysFromCivil` is affine in the day-of-month component. -/
theorem daysFromCivil_day (y m d : Int) :
    daysFromCivil y m d = daysFromCivil y m 1 + d - 1 := by
  simp only [daysFromCivil]
  ring

/-- `setDate` in terms of the date's own day number: JavaScript
`d.setDate(n)` moves the timestamp by `n - d.getDate()` days. -/
theorem JSDate.setDate_eq (dt : JSDate) (n : Int) :
    dt.setDate n = civilFromDays (dt.toDays + (n - dt.day)) := by
  simp only [JSDate.setDate, JSDate.toDays, daysFromCivil_day dt.year dt.month dt.day]
  ring_nf

/-- View types of the appointments page (`useState<'day' | 'week' | 'list'>`). -/
inductive ViewType
  | day
  | week
  | list
deriving DecidableEq, Repr

/-- Navigation directions of the appointments page date switcher. -/
inductive Direction
  | prev
  | next
deriving DecidableEq, Repr

/-- The appointments page's `getDateRange`: in week view, mutate a copy
`start` of the selected date to the week's Monday (Sunday counted as offset 6
from Monday) and then set the day of month of the *other* copy `end` — still
anchored to the selected date's month — to `start.getDate() + 6`; in every
other view keep both at the selected date.  Returns (start_date, end_date). -/
def getDateRange (viewType : ViewType) (selectedDate : JSDate) : JSDate × JSDate :=
  if viewType = ViewType.week then
    let day := selectedDate.getDay
    let diff := selectedDate.day - day + (if day = 0 then -6 else 1)
    let startD := selectedDate.setDate diff
    let endD := selectedDate.setDate (startD.day + 6)
    (startD, endD)
  else
    (selectedDate, selectedDate.setDate selectedDate.day)

/-- The appointments page's `navigateDate`: shift the selected date's day of
month by ±1 in day view and ±7 in week view (no change in list view). -/
def navigateDate (direction : Direction) (viewType : ViewType) (selectedDate : JSDate) :
    JSDate :=
  match viewType with
  | ViewType.day =>
      selectedDate.setDate (selectedDate.day + (if direction = Direction.next then 1 else -1))
  | ViewType.week =>
      selectedDate.setDate (selectedDate.day + (if direction = Direction.next then 7 else -7))
  | ViewType.list => selectedDate

/-- Claim C8: for every selected date, `navigateDate` moves the selected date
forward (`next`) or backward (`prev`) by exactly one calendar day in day view
and exactly seven calendar days in week view: the result is the civil date
whose day number is the selected date's day number ±1 (day view) or ±7 (week
view), so normalisation across month and year boundaries is exactly that of
the Gregorian calendar. -/
theorem navigateDate_shifts_by_view (d : JSDate) :
    navigateDate Direction.next ViewType.day d = civilFromDays (d.toDays + 1)
    ∧ navigateDate Direction.prev ViewType.day d = civilFromDays (d.toDays - 1)
    ∧ navigateDate Direction.next ViewType.week d = civilFromDays (d.toDays + 7)
    ∧ navigateDate Direction.prev ViewType.week d = civilFromDays (d.toDays - 7) := by
  refine ⟨?_, ?_, ?_, ?_⟩ <;>
    simp only [navigateDate, JSDate.setDate_eq, reduceIte, reduceCtorEq] <;>
    ring_nf

/-- Claim C1 (failing case): on the selected Wednesday 2024-05-01 in week
view, `getDateRange` aligns the start to Monday 2024-04-29 but, because the
end copy is still anchored to May when its day of month is set to
`29 + 6 = 35`, produces the end date 2024-06-04 — not six days after the
start, which would be 2024-05-05. -/
theorem getDateRange_week_cross_month :
    getDateRange ViewType.week ⟨2024, 5, 1⟩ = (⟨2024, 4, 29⟩, ⟨2024, 6, 4⟩)
    ∧ civilFromDays ((⟨2024, 4, 29⟩ : JSDate).toDays + 6) = ⟨2024, 5, 5⟩
    ∧ ((⟨2024, 6, 4⟩ : JSDate) ≠ ⟨2024, 5, 5⟩) := by
  refine ⟨?_, ?_, ?_⟩ <;> decide

/-- Strict lexicographic order on civil dates (the calendar order on valid
dates): earlier year, or same year and earlier month, or same year and month
and earlier day. -/
def dateLt (a b : JSDate) : Prop :=
  a.year < b.year
    ∨ (a.year = b.year ∧ (a.month < b.month ∨ (a.month = b.month ∧ a.day < b.day)))

/-- Non-strict lexicographic order on civil dates. -/
def dateLe (a b : JSDate) : Prop :=
  dateLt a b ∨ a = b

instance (a b : JSDate) : Decidable (dateLt a b) := by
  unfold dateLt; infer_instance

instance (a b : JSDate) : Decidable (dateLe a b) := by
  unfold dateLe; infer_instance

/-- The `calculateAge` utility: year difference between "today" and the birth
date, decreased by one when the birthday has not yet occurred this year
(month difference negative, or zero with today's day of month before the
birth day).  "Today" is passed explicitly; the source's guards for a missing
or unparsable birth-date string are outside this civil-date model. -/
def calculateAge (birth today : JSDate) : Int :=
  let age := today.year - birth.year
  let monthDiff := today.month - birth.month
  if monthDiff < 0 ∨ (monthDiff = 0 ∧ today.day < birth.day) then age - 1 else age

/-- Claim C3 (counterexample): `calculateAge` does not *decrement* on the
birthday — for birth 2000-06-15 it returns 23 on 2024-06-14 and 24 on the
birthday 2024-06-15, an increment of one, not a decrement. -/
theorem calculateAge_increments_on_birthday :
    calculateAge ⟨2000, 6, 15⟩ ⟨2024, 6, 14⟩ = 23
    ∧ calculateAge ⟨2000, 6, 15⟩ ⟨2024, 6, 15⟩ = 24
    ∧ ¬ (calculateAge ⟨2000, 6, 15⟩ ⟨2024, 6, 15⟩
          = calculateAge ⟨2000, 6, 15⟩ ⟨2024, 6, 14⟩ - 1) := by
  refine ⟨?_, ?_, ?_⟩ <;> decide

/-- Claim C3 (amended): `calculateAge` returns the whole number of full years
elapsed: writing `k` for the returned value, the `k`-th anniversary of the
birth date (same month and day, year `birth.year + k`) is on or before today
and the `(k+1)`-th anniversary is strictly after today, in calendar
(lexicographic) order; hence within any year the value increases by exactly
one, exactly at the first day on or after the birthday's month/day, and from
any date to the same date one year later it increases by exactly one.
(Stability across repeated calls at the same instant is purity of the
function, which holds by construction.) -/
theorem calculateAge_full_years (b t : JSDate) :
    dateLe ⟨b.year + calculateAge b t, b.month, b.day⟩ t
    ∧ dateLt t ⟨b.year + calculateAge b t + 1, b.month, b.day⟩
    ∧ calculateAge b ⟨t.year + 1, t.month, t.day⟩ = calculateAge b t + 1 := by
  obtain ⟨by_, bm, bd⟩ := b
  obtain ⟨ty, tm, td⟩ := t
  simp only [calculateAge, dateLe, dateLt, JSDate.mk.injEq]
  refine ⟨?_, ?_, ?_⟩ <;> split <;> omega

/-- Digit content of a string: the characters kept by the source's
`phone.replace(/\D/g, "")` (ASCII digits, `Char.isDigit`). -/
def digitsOf (s : String) : List Char :=
  s.data.filter Char.isDigit

/-- The `formatPhoneNumber` utility: empty input yields the empty string;
an input whose digit content has exactly 10 digits is formatted as
`(XXX) XXX-XXXX` from slices `[0,3)`, `[3,6)`, `[6,10)` of the digits; any
other input is returned unchanged. -/
def formatPhoneNumber (phone : String) : String :=
  if phone = "" then ""
  else if (digitsOf phone).length = 10 then
    "(" ++ String.mk ((digitsOf phone).take 3) ++ ") "
      ++ String.mk (((digitsOf phone).drop 3).take 3) ++ "-"
      ++ String.mk ((digitsOf phone).drop 6)
  else phone

theorem digitsOf_append (s t : String) :
    digitsOf (s ++ t) = digitsOf s ++ digitsOf t := by
  simp [digitsOf, String.data_append, List.filter_append]

/-- Filtering the digits out of the formatted `(XXX) XXX-XXXX` string
recovers exactly the digit list it was built from. -/
theorem digitsOf_formatted (ds : List Char) (hds : ∀ c ∈ ds, c.isDigit = true) :
    digitsOf ("(" ++ String.mk (ds.take 3) ++ ") "
        ++ String.mk ((ds.drop 3).take 3) ++ "-" ++ String.mk (ds.drop 6)) = ds := by
  have h1 : (ds.take 3).filter Char.isDigit = ds.take 3 :=
    List.filter_eq_self.mpr fun c hc => hds c (List.mem_of_mem_take hc)
  have h2 : ((ds.drop 3).take 3).filter Char.isDigit = (ds.drop 3).take 3 :=
    List.filter_eq_self.mpr fun c hc =>
      hds c (List.mem_of_mem_drop (List.mem_of_mem_take hc))
  have h3 : (ds.drop 6).filter Char.isDigit = ds.drop 6 :=
    List.filter_eq_self.mpr fun c hc => hds c (List.mem_of_mem_drop hc)
  have hsplit : ds.take 3 ++ ((ds.drop 3).take 3 ++ (ds.drop 3).drop 3) = ds := by
    rw [List.take_append_drop, List.take_append_drop]
  have hdrop : (ds.drop 3).drop 3 = ds.drop 6 := List.drop_drop 3 3 ds
  rw [hdrop] at hsplit
  have e1 : List.filter Char.isDigit ['('] = [] := by decide
  have e2 : List.filter Char.isDigit [')', ' '] = [] := by decide
  have e3 : List.filter Char.isDigit ['-'] = [] := by decide
  simp only [digitsOf, String.data_append, List.filter_append]
  show List.filter Char.isDigit ['('] ++ (ds.take 3).filter Char.isDigit
      ++ List.filter Char.isDigit [')', ' '] ++ ((ds.drop 3).take 3).filter Char.isDigit
      ++ List.filter Char.isDigit ['-'] ++ (ds.drop 6).filter Char.isDigit = ds
  rw [h1, h2, h3, e1, e2, e3]
  simp only [List.nil_append, List.append_nil]
  conv_rhs => rw [← hsplit]
  rw [List.append_assoc]

/-- Claim C4: on inputs whose digit content has exactly 10 digits,
`formatPhoneNumber` produces the `(XXX) XXX-XXXX` rendering of those digits
and is idempotent (stripping the output's non-digits and re-formatting gives
the same string); every input whose digit count is not 10 is returned
unchanged. -/
theorem formatPhoneNumber_spec (s : String) :
    ((digitsOf s).length = 10 →
      formatPhoneNumber s =
        "(" ++ String.mk ((digitsOf s).take 3) ++ ") "
          ++ String.mk (((digitsOf s).drop 3).take 3) ++ "-"
          ++ String.mk ((digitsOf s).drop 6)
      ∧ formatPhoneNumber (formatPhoneNumber s) = formatPhoneNumber s)
    ∧ ((digitsOf s).length ≠ 10 → formatPhoneNumber s = s) := by
  constructor
  · intro h10
    have hs : s ≠ "" := by
      intro he
      rw [he] at h10
      simp [digitsOf] at h10
    have hfmt : formatPhoneNumber s =
        "(" ++ String.mk ((digitsOf s).take 3) ++ ") "
          ++ String.mk (((digitsOf s).drop 3).take 3) ++ "-"
          ++ String.mk ((digitsOf s).drop 6) := by
      rw [formatPhoneNumber, if_neg hs, if_pos h10]
    refine ⟨hfmt, ?_⟩
    have hdig : digitsOf (formatPhoneNumber s) = digitsOf s := by
      rw [hfmt]
      exact digitsOf_formatted (digitsOf s) fun c hc => List.of_mem_filter hc
    have hFne : formatPhoneNumber s ≠ "" := by
      intro he
      have hdata := congrArg String.data (hfmt.symm.trans he)
      rw [String.data_append] at hdata
      simp at hdata
    rw [formatPhoneNumber, if_neg hFne, if_pos (hdig ▸ h10), hdig, ← hfmt]
  · intro hne
    by_cases hs : s = ""
    · rw [hs]
      rfl
    · rw [formatPhoneNumber, if_neg hs, if_neg hne]

/-- Claim C4 (witness): a concrete 10-digit input is formatted and the
result is a fixed point of strip-then-format. -/
theorem formatPhoneNumber_spec_witness :
    (digitsOf "555-867-5309").length = 10
    ∧ formatPhoneNumber (formatPhoneNumber "555-867-5309")
        = formatPhoneNumber "555-867-5309" :=
  ⟨by decide, ((formatPhoneNumber_spec "555-867-5309").1 (by decide)).2⟩

/-- The exported API functions, one constructor per function of the five
call groups of the API client module (`healthApi`, `patientApi`,
`appointmentApi`, `providerApi`, `clinicalRecordApi`).  Every one of them
performs its HTTP request through the single shared axios instance `api`,
so they all share its interceptors. -/
inductive Endpoint
  | healthCheck
  | healthInfo
  | patientsGetAll
  | patientsGetById
  | patientsCreate
  | patientsUpdate
  | patientsDeleteOne
  | patientsSearch
  | patientsGetByMrn
  | patientsGetSummary
  | patientsReactivate
  | appointmentsGetAll
  | appointmentsGetById
  | appointmentsCreate
  | appointmentsUpdate
  | appointmentsCancel
  | appointmentsCheckConflicts
  | appointmentsProviderAvailability
  | appointmentsCheckIn
  | appointmentsStart
  | appointmentsComplete
  | appointmentsMarkNoShow
  | appointmentsTodayOverview
  | providersGetAll
  | providersGetById
  | providersCreate
  | providersUpdate
  | providersGetBySpecialty
  | providersGetSchedule
  | providersGetAvailability
  | providersGetWorkload
  | recordsGetAll
  | recordsGetById
  | recordsCreate
  | recordsUpdate
  | recordsDeleteOne
  | recordsPatientHistory
  | recordsPatientTimeline
  | recordsGetByType
  | recordsCreateVitalSigns
  | recordsCreateDiagnosis
  | recordsCreatePrescription
  | recordsPatientAllergies
  | recordsPatientMedications
  | recordsPatientDiagnoses
  | recordsLatestVitalSigns
  | recordsMarkAsReviewed
  | recordsSummaryStats
deriving DecidableEq, Repr

/-- HTTP method and path template of each API function (path parameters
written `:name`), as fixed in the API client module. -/
def endpointRoute : Endpoint → String × String
  | Endpoint.healthCheck => ("GET", "/api/v1/health")
  | Endpoint.healthInfo => ("GET", "/api/v1/info")
  | Endpoint.patientsGetAll => ("GET", "/api/v1/patients")
  | Endpoint.patientsGetById => ("GET", "/api/v1/patients/:id")
  | Endpoint.patientsCreate => ("POST", "/api/v1/patients")
  | Endpoint.patientsUpdate => ("PUT", "/api/v1/patients/:id")
  | Endpoint.patientsDeleteOne => ("DELETE", "/api/v1/patients/:id")
  | Endpoint.patientsSearch => ("GET", "/api/v1/patients/search")
  | Endpoint.patientsGetByMrn => ("GET", "/api/v1/patients/mrn/:mrn")
  | Endpoint.patientsGetSummary => ("GET", "/api/v1/patients/:id/summary")
  | Endpoint.patientsReactivate => ("POST", "/api/v1/patients/:id/reactivate")
  | Endpoint.appointmentsGetAll => ("GET", "/api/v1/appointments")
  | Endpoint.appointmentsGetById => ("GET", "/api/v1/appointments/:id")
  | Endpoint.appointmentsCreate => ("POST", "/api/v1/appointments")
  | Endpoint.appointmentsUpdate => ("PUT", "/api/v1/appointments/:id")
  | Endpoint.appointmentsCancel => ("DELETE", "/api/v1/appointments/:id")
  | Endpoint.appointmentsCheckConflicts => ("POST", "/api/v1/appointments/check-conflicts")
  | Endpoint.appointmentsProviderAvailability =>
      ("GET", "/api/v1/appointments/provider/:providerId/availability")
  | Endpoint.appointmentsCheckIn => ("POST", "/api/v1/appointments/:id/check-in")
  | Endpoint.appointmentsStart => ("POST", "/api/v1/appointments/:id/start")
  | Endpoint.appointmentsComplete => ("POST", "/api/v1/appointments/:id/complete")
  | Endpoint.appointmentsMarkNoShow => ("POST", "/api/v1/appointments/:id/no-show")
  | Endpoint.appointmentsTodayOverview => ("GET", "/api/v1/appointments/today/overview")
  | Endpoint.providersGetAll => ("GET", "/api/v1/providers")
  | Endpoint.providersGetById => ("GET", "/api/v1/providers/:id")
  | Endpoint.providersCreate => ("POST", "/api/v1/providers")
  | Endpoint.providersUpdate => ("PUT", "/api/v1/providers/:id")
  | Endpoint.providersGetBySpecialty => ("GET", "/api/v1/providers/specialty/:specialty")
  | Endpoint.providersGetSchedule => ("GET", "/api/v1/providers/:id/schedule")
  | Endpoint.providersGetAvailability => ("GET", "/api/v1/providers/:id/availability")
  | Endpoint.providersGetWorkload => ("GET", "/api/v1/providers/:id/workload")
  | Endpoint.recordsGetAll => ("GET", "/api/v1/clinical-records")
  | Endpoint.recordsGetById => ("GET", "/api/v1/clinical-records/:id")
  | Endpoint.recordsCreate => ("POST", "/api/v1/clinical-records")
  | Endpoint.recordsUpdate => ("PUT", "/api/v1/clinical-records/:id")
  | Endpoint.recordsDeleteOne => ("DELETE", "/api/v1/clinical-records/:id")
  | Endpoint.recordsPatientHistory =>
      ("GET", "/api/v1/clinical-records/patient/:patientId/history")
  | Endpoint.recordsPatientTimeline =>
      ("GET", "/api/v1/clinical-records/patient/:patientId/timeline")
  | Endpoint.recordsGetByType => ("GET", "/api/v1/clinical-records/type/:recordType")
  | Endpoint.recordsCreateVitalSigns => ("POST", "/api/v1/clinical-records/vital-signs")
  | Endpoint.recordsCreateDiagnosis => ("POST", "/api/v1/clinical-records/diagnosis")
  | Endpoint.recordsCreatePrescription => ("POST", "/api/v1/clinical-records/prescription")
  | Endpoint.recordsPatientAllergies =>
      ("GET", "/api/v1/clinical-records/patient/:patientId/allergies")
  | Endpoint.recordsPatientMedications =>
      ("GET", "/api/v1/clinical-records/patient/:patientId/medications")
  | Endpoint.recordsPatientDiagnoses =>
      ("GET", "/api/v1/clinical-records/patient/:patientId/diagnoses")
  | Endpoint.recordsLatestVitalSigns =>
      ("GET", "/api/v1/clinical-records/patient/:patientId/vital-signs/latest")
  | Endpoint.recordsMarkAsReviewed => ("POST", "/api/v1/clinical-records/:id/review")
  | Endpoint.recordsSummaryStats => ("GET", "/api/v1/clinical-records/stats/summary")

/-- The part of an axios failure response the interceptor inspects:
`error.response.status` and `error.response.data.error` (absent when the
backend sent no such field). -/
structure AxiosResponse where
  status : Int
  dataError : Option String
deriving DecidableEq, Repr

/-- An axios error as seen by the response interceptor: `error.response` is
absent for network-level failures (including timeouts), `error.code` is the
axios error code (`"ECONNABORTED"` on timeout), `error.message` is the
error's own message. -/
structure AxiosError where
  response : Option AxiosResponse
  code : Option String
  message : String
deriving DecidableEq, Repr

/-- Client-side browser state touched by the interceptor: the
`localStorage` auth token and the current location. -/
structure ClientState where
  token : Option String
  location : String
deriving DecidableEq, Repr

/-- Observable outcome of the response interceptor's error handler: the
resulting client state, the toast notifications emitted, and whether the
error was re-rejected to the caller. -/
structure InterceptResult where
  finalState : ClientState
  toasts : List String
  rejected : Bool
deriving DecidableEq, Repr

/-- `error.response?.status` -/
def errStatus (e : AxiosError) : Option Int :=
  e.response.map AxiosResponse.status

/-- `error.response?.status >= 500` (false when there is no response, since
`undefined >= 500` is false). -/
def statusIsServerError (e : AxiosError) : Bool :=
  match errStatus e with
  | some s => decide (500 ≤ s)
  | none => false

/-- JavaScript `error.response?.data?.error || error.message || 'An error
occurred'`: first string in the chain that is present and non-empty, with
the fixed generic message as last resort. -/
def fallbackMessage (e : AxiosError) : String :=
  match e.response.bind AxiosResponse.dataError with
  | some msg =>
      if msg = "" then (if e.message = "" then "An error occurred" else e.message) else msg
  | none => if e.message = "" then "An error occurred" else e.message

/-- The central response interceptor's error handler: on 401 (in a browser
context, `hasWindow`) remove the stored auth token and navigate to
`/login`; on 403, 404, status ≥ 500 or an aborted (timed-out) request show
the fixed toast for that class; otherwise show the backend-provided or
fallback message; in every case reject the error onwards. -/
def onResponseError (hasWindow : Bool) (e : AxiosError) (st : ClientState) :
    InterceptResult :=
  if errStatus e = some 401 then
    if hasWindow then ⟨⟨none, "/login"⟩, [], true⟩ else ⟨st, [], true⟩
  else if errStatus e = some 403 then ⟨st, ["Access forbidden"], true⟩
  else if errStatus e = some 404 then ⟨st, ["Resource not found"], true⟩
  else if statusIsServerError e then ⟨st, ["Server error. Please try again later."], true⟩
  else if e.code = some "ECONNABORTED" then ⟨st, ["Request timeout. Please try again."], true⟩
  else ⟨st, [fallbackMessage e], true⟩

/-- Error handling of any API call: every function of every call group goes
through the single shared axios instance, hence through the same response
interceptor, independently of the endpoint. -/
def handleApiError (_endpoint : Endpoint) : Bool → AxiosError → ClientState → InterceptResult :=
  onResponseError

/-- Claim C2: for every API call in every call group, a response with HTTP
status 401 makes the central interceptor remove the stored auth token and
navigate to the login route (and still reject the error), regardless of
which endpoint produced the 401. -/
theorem api_401_clears_token_and_redirects (ep : Endpoint) (e : AxiosError)
    (st : ClientState) (h : errStatus e = some 401) :
    (handleApiError ep true e st).finalState.token = none
    ∧ (handleApiError ep true e st).finalState.location = "/login"
    ∧ (handleApiError ep true e st).rejected = true := by
  simp [handleApiError, onResponseError, h]

/-- Claim C2 (witness): a concrete 401 from a concrete endpoint clears a
stored token and redirects to `/login`. -/
theorem api_401_witness :
    (handleApiError Endpoint.recordsGetAll true ⟨some ⟨401, none⟩, none, ""⟩
        ⟨some "tok", "/patients"⟩).finalState.token = none
    ∧ (handleApiError Endpoint.recordsGetAll true ⟨some ⟨401, none⟩, none, ""⟩
        ⟨some "tok", "/patients"⟩).finalState.location = "/login"
    ∧ (handleApiError Endpoint.recordsGetAll true ⟨some ⟨401, none⟩, none, ""⟩
        ⟨some "tok", "/patients"⟩).rejected = true :=
  api_401_clears_token_and_redirects Endpoint.recordsGetAll
    ⟨some ⟨401, none⟩, none, ""⟩ ⟨some "tok", "/patients"⟩ rfl

/-- Claim C5 (counterexample): an error that falls outside all the fixed
status classes and whose backend message and own message are both absent or
empty is surfaced as the fixed generic text "An error occurred", not as the
error's own (empty) message verbatim. -/
theorem interceptor_generic_fallback_cex :
    (handleApiError Endpoint.patientsGetAll true ⟨none, none, ""⟩ ⟨none, "/"⟩).toasts
        = ["An error occurred"]
    ∧ (handleApiError Endpoint.patientsGetAll true ⟨none, none, ""⟩ ⟨none, "/"⟩).toasts
        ≠ [(⟨none, none, ""⟩ : AxiosError).message] := by
  refine ⟨?_, ?_⟩ <;> decide

/-- Claim C5 (amended): for every failed response with status other than
401: status 403, status 404 and status ≥ 500 each surface exactly the fixed
toast of that status class, a timed-out request (no response, axios code
ECONNABORTED) surfaces the fixed timeout toast, and every other error
surfaces the backend-provided error message verbatim, falling back to the
error's own message, and to the fixed generic message "An error occurred"
when both are absent or empty; in all cases the error is rejected onwards
to the caller rather than swallowed. -/
theorem interceptor_error_taxonomy (ep : Endpoint) (e : AxiosError) (st : ClientState) :
    (handleApiError ep true e st).rejected = true
    ∧ (errStatus e = some 403 →
        (handleApiError ep true e st).toasts = ["Access forbidden"])
    ∧ (errStatus e = some 404 →
        (handleApiError ep true e st).toasts = ["Resource not found"])
    ∧ (∀ s : Int, errStatus e = some s → 500 ≤ s →
        (handleApiError ep true e st).toasts = ["Server error. Please try again later."])
    ∧ (e.response = none → e.code = some "ECONNABORTED" →
        (handleApiError ep true e st).toasts = ["Request timeout. Please try again."])
    ∧ (∀ r : AxiosResponse, e.response = some r →
        r.status ≠ 401 → r.status ≠ 403 → r.status ≠ 404 → r.status < 500 →
        e.code ≠ some "ECONNABORTED" →
        ((∀ m : String, r.dataError = some m → m ≠ "" →
            (handleApiError ep true e st).toasts = [m])
          ∧ ((r.dataError = none ∨ r.dataError = some "") → e.message ≠ "" →
            (handleApiError ep true e st).toasts = [e.message])
          ∧ ((r.dataError = none ∨ r.dataError = some "") → e.message = "" →
            (handleApiError ep true e st).toasts = ["An error occurred"])))
    ∧ (e.response = none → e.code ≠ some "ECONNABORTED" →
        ((e.message ≠ "" → (handleApiError ep true e st).toasts = [e.message])
          ∧ (e.message = "" →
            (handleApiError ep true e st).toasts = ["An error occurred"]))) := by
  obtain ⟨resp, code, msg⟩ := e
  refine ⟨?_, ?_, ?_, ?_, ?_, ?_, ?_⟩
  · simp only [handleApiError, onResponseError]
    split
    · split <;> rfl
    · split
      · rfl
      · split
        · rfl
        · split
          · rfl
          · split <;> rfl
  · intro h
    have h403 : errStatus ⟨resp, code, msg⟩ ≠ some 401 := by rw [h]; decide
    have hsrv : statusIsServerError ⟨resp, code, msg⟩ = false := by
      simp [statusIsServerError, h]
    simp [handleApiError, onResponseError, h403, h, hsrv]
  · intro h
    have h401 : errStatus ⟨resp, code, msg⟩ ≠ some 401 := by rw [h]; decide
    have h403 : errStatus ⟨resp, code, msg⟩ ≠ some 403 := by rw [h]; decide
    have hsrv : statusIsServerError ⟨resp, code, msg⟩ = false := by
      simp [statusIsServerError, h]
    simp [handleApiError, onResponseError, h401, h403, h, hsrv]
  · intro s h hs
    have h401 : errStatus ⟨resp, code, msg⟩ ≠ some 401 := by rw [h]; simp; omega
    have h403 : errStatus ⟨resp, code, msg⟩ ≠ some 403 := by rw [h]; simp; omega
    have h404 : errStatus ⟨resp, code, msg⟩ ≠ some 404 := by rw [h]; simp; omega
    have hsrv : statusIsServerError ⟨resp, code, msg⟩ = true := by
      simp [statusIsServerError, h, hs]
    simp [handleApiError, onResponseError, h401, h403, h404, hsrv]
  · intro hr hc
    have hc' : code = some "ECONNABORTED" := hc
    subst hr
    simp [handleApiError, onResponseError, errStatus, statusIsServerError, hc']
  · rintro r rfl h401 h403 h404 h500 hcode
    have e401 : errStatus ⟨some r, code, msg⟩ ≠ some 401 := by
      simp [errStatus]; omega
    have e403 : errStatus ⟨some r, code, msg⟩ ≠ some 403 := by
      simp [errStatus]; omega
    have e404 : errStatus ⟨some r, code, msg⟩ ≠ some 404 := by
      simp [errStatus]; omega
    have hsrv : statusIsServerError ⟨some r, code, msg⟩ = false := by
      simp [statusIsServerError, errStatus]; omega
    refine ⟨?_, ?_, ?_⟩
    · intro m hm hmne
      simp [handleApiError, onResponseError, e401, e403, e404, hsrv, hcode,
        fallbackMessage, hm, hmne]
    · rintro (hm | hm) hmsg <;>
        simp [handleApiError, onResponseError, e401, e403, e404, hsrv, hcode,
          fallbackMessage, hm, hmsg]
    · intro hm' hmsg
      have hmsg' : msg = "" := hmsg
      subst hmsg'
      rcases hm' with hm | hm <;>
        simp [handleApiError, onResponseError, e401, e403, e404, hsrv, hcode,
          fallbackMessage, hm]
  · rintro rfl hcode
    have hcode' : code ≠ some "ECONNABORTED" := hcode
    refine ⟨?_, ?_⟩
    · intro hmsg
      simp [handleApiError, onResponseError, errStatus, statusIsServerError, hcode',
        fallbackMessage, hmsg]
    · intro hmsg
      have hmsg' : msg = "" := hmsg
      subst hmsg'
      simp [handleApiError, onResponseError, errStatus, statusIsServerError, hcode',
        fallbackMessage]

/-- Claim C5 (witness): concrete instances of the 403 class, the timeout
class and the verbatim backend-message case. -/
theorem interceptor_error_taxonomy_witness :
    (handleApiError Endpoint.providersGetAll true ⟨some ⟨403, none⟩, none, "x"⟩
        ⟨none, "/"⟩).toasts = ["Access forbidden"]
    ∧ (handleApiError Endpoint.appointmentsGetAll true
        ⟨none, some "ECONNABORTED", "timeout of 30000ms exceeded"⟩
        ⟨none, "/"⟩).toasts = ["Request timeout. Please try again."]
    ∧ (handleApiError Endpoint.patientsCreate true
        ⟨some ⟨422, some "Invalid date of birth"⟩, none, "Request failed"⟩
        ⟨none, "/"⟩).toasts = ["Invalid date of birth"] :=
  ⟨(interceptor_error_taxonomy Endpoint.providersGetAll ⟨some ⟨403, none⟩, none, "x"⟩
      ⟨none, "/"⟩).2.1 rfl,
   (interceptor_error_taxonomy Endpoint.appointmentsGetAll
      ⟨none, some "ECONNABORTED", "timeout of 30000ms exceeded"⟩ ⟨none, "/"⟩).2.2.2.2.1
      rfl rfl,
   (((interceptor_error_taxonomy Endpoint.patientsCreate
      ⟨some ⟨422, some "Invalid date of birth"⟩, none, "Request failed"⟩
      ⟨none, "/"⟩).2.2.2.2.2.1 ⟨422, some "Invalid date of birth"⟩ rfl
      (by decide) (by decide) (by decide) (by decide) (by decide)).1
      "Invalid date of birth" rfl (by decide))⟩

/-- The patients list page's state: `searchTerm` (initially `""`),
`searchType` (initially `"all"`), `currentPage` (initially 1) and the fixed
`perPage` of 20, whose `useState` exposes no setter.  This is the
repository's paginated list page; the appointments page carries the status
and provider filters but holds no page number at all, so it has no
pagination state that a filter change could fail to reset. -/
structure PatientsPageState where
  searchTerm : String
  searchType : String
  currentPage : Int
  perPage : Int
deriving DecidableEq, Repr

/-- The patients page's initial state. -/
def patientsPageInit : PatientsPageState :=
  ⟨"", "all", 1, 20⟩

/-- The patients page's `handleSearch`: store the new search term and search
type and reset `currentPage` to 1.  It is the only writer of `searchTerm`
and `searchType`, i.e. every filter change on this page goes through it. -/
def handleSearch (st : PatientsPageState) (term stype : String) : PatientsPageState :=
  { st with searchTerm := term, searchType := stype, currentPage := 1 }

/-- The search input's `onChange` call site:
`handleSearch(e.target.value, searchType)`. -/
def searchInputChange (st : PatientsPageState) (v : String) : PatientsPageState :=
  handleSearch st v st.searchType

/-- The search-type select's `onChange` call site:
`handleSearch(searchTerm, e.target.value)`. -/
def searchTypeChange (st : PatientsPageState) (v : String) : PatientsPageState :=
  handleSearch st st.searchTerm v

/-- The Previous pagination button: `setCurrentPage(currentPage - 1)` — one
of the only two writers of `currentPage` besides `handleSearch`. -/
def paginationPrev (st : PatientsPageState) : PatientsPageState :=
  { st with currentPage := st.currentPage - 1 }

/-- The Next pagination button: `setCurrentPage(currentPage + 1)`. -/
def paginationNext (st : PatientsPageState) : PatientsPageState :=
  { st with currentPage := st.currentPage + 1 }

/-- Claim C6: from any patients-page state — in particular one displaying a
page greater than 1 — every filter change resets the displayed page to 1:
`handleSearch` itself for arbitrary term and type, and both of its UI call
sites (typing in the search input, picking a search type).  The remaining
filters of the claim (status and provider) belong to the appointments page,
which has no pagination state, so the claim holds vacuously there. -/
theorem filterChange_resets_page (st : PatientsPageState) (term stype v : String) :
    (handleSearch st term stype).currentPage = 1
    ∧ (searchInputChange st v).currentPage = 1
    ∧ (searchTypeChange st v).currentPage = 1 :=
  ⟨rfl, rfl, rfl⟩

/-- Outcome of the latest list fetch as exposed by the query layer:
in flight (`isLoading`), failed (`error` set), or succeeded with a list of
items. -/
inductive FetchState (α : Type)
  | inFlight
  | failure
  | success (items : List α)
deriving DecidableEq, Repr

/-- The four mutually exclusive things the appointments list page renders. -/
inductive RenderBranch
  | errorBranch
  | loadingBranch
  | emptyBranch
  | listBranch
deriving DecidableEq, Repr

/-- The appointments page's render selection: an early return of the error
card when `error` is set; otherwise the skeleton list while `isLoading`;
otherwise the "No appointments found" card when the fetched items are empty
(`appointmentsData?.items.length === 0`, false when data is absent); and
otherwise one card per fetched appointment. -/
def renderAppointments {α : Type} (s : FetchState α) : RenderBranch :=
  let error := match s with | FetchState.failure => true | _ => false
  let isLoading := match s with | FetchState.inFlight => true | _ => false
  let items : Option (List α) :=
    match s with | FetchState.success its => some its | _ => none
  if error then RenderBranch.errorBranch
  else if isLoading then RenderBranch.loadingBranch
  else
    match items with
    | some its => if its.length = 0 then RenderBranch.emptyBranch else RenderBranch.listBranch
    | none => RenderBranch.listBranch

/-- Claim C7: a successful fetch with zero items renders the empty state —
not the loading and not the error state; the loading branch is rendered
exactly when the fetch is in flight, and the error branch exactly when it
failed. -/
theorem appointments_render_states {α : Type} :
    renderAppointments (FetchState.success ([] : List α)) = RenderBranch.emptyBranch
    ∧ (∀ s : FetchState α,
        renderAppointments s = RenderBranch.loadingBranch ↔ s = FetchState.inFlight)
    ∧ (∀ s : FetchState α,
        renderAppointments s = RenderBranch.errorBranch ↔ s = FetchState.failure) := by
  refine ⟨rfl, ?_, ?_⟩ <;> intro s <;> cases s <;>
    simp [renderAppointments] <;>
    rename_i its <;> cases its <;> simp

/-- The closed set of named Badge variants declared in the badge
component's cva configuration. -/
inductive BadgeVariant
  | default
  | secondary
  | destructive
  | outline
  | active
  | inactive
  | scheduled
  | confirmed
  | cancelled
  | completed
  | inProgress
  | urgent
  | high
  | medium
  | low
  | success
  | warning
  | errorSeverity
  | info
deriving DecidableEq, Repr

/-- The fixed style (class string) of each Badge variant, copied from the
cva variant table. -/
def badgeVariantClass : BadgeVariant → String
  | BadgeVariant.default =>
      "border-transparent bg-primary text-primary-foreground hover:bg-primary/80"
  | BadgeVariant.secondary =>
      "border-transparent bg-secondary text-secondary-foreground hover:bg-secondary/80"
  | BadgeVariant.destructive =>
      "border-transparent bg-destructive text-destructive-foreground hover:bg-destructive/80"
  | BadgeVariant.outline => "text-foreground"
  | BadgeVariant.active => "border-transparent bg-green-100 text-green-800"
  | BadgeVariant.inactive => "border-transparent bg-gray-100 text-gray-800"
  | BadgeVariant.scheduled => "border-transparent bg-blue-100 text-blue-800"
  | BadgeVariant.confirmed => "border-transparent bg-green-100 text-green-800"
  | BadgeVariant.cancelled => "border-transparent bg-red-100 text-red-800"
  | BadgeVariant.completed => "border-transparent bg-gray-100 text-gray-800"
  | BadgeVariant.inProgress => "border-transparent bg-yellow-100 text-yellow-800"
  | BadgeVariant.urgent => "border-transparent bg-red-100 text-red-800"
  | BadgeVariant.high => "border-transparent bg-red-100 text-red-800"
  | BadgeVariant.medium => "border-transparent bg-yellow-100 text-yellow-800"
  | BadgeVariant.low => "border-transparent bg-green-100 text-green-800"
  | BadgeVariant.success => "border-transparent bg-status-success text-white"
  | BadgeVariant.warning => "border-transparent bg-status-warning text-white"
  | BadgeVariant.errorSeverity => "border-transparent bg-status-error text-white"
  | BadgeVariant.info => "border-transparent bg-status-info text-white"

/-- The Badge component's variant resolution: cva applies the configured
default variant when no variant is given. -/
def badgeClass (variant : Option BadgeVariant) : String :=
  badgeVariantClass (variant.getD BadgeVariant.default)

/-- JavaScript `toLowerCase()` on the (ASCII) status and urgency strings,
modelled character-wise so it is kernel-computable. -/
def jsToLower (s : String) : String :=
  String.mk (s.data.map Char.toLower)

/-- The appointment card's `getStatusVariant`: lower-cased status mapped to
a badge variant, default variant for anything unrecognised. -/
def getStatusVariant (status : String) : BadgeVariant :=
  if jsToLower status = "scheduled" then BadgeVariant.scheduled
  else if jsToLower status = "confirmed" then BadgeVariant.confirmed
  else if jsToLower status = "cancelled" then BadgeVariant.cancelled
  else if jsToLower status = "completed" then BadgeVariant.completed
  else if jsToLower status = "in_progress" then BadgeVariant.inProgress
  else if jsToLower status = "checked_in" then BadgeVariant.inProgress
  else BadgeVariant.default

/-- The appointment card's `getPriorityVariant`: lower-cased urgency mapped
to a badge variant, with `medium` — not the default variant — as the
fallback for anything unrecognised. -/
def getPriorityVariant (urgency : String) : BadgeVariant :=
  if jsToLower urgency = "urgent" then BadgeVariant.urgent
  else if jsToLower urgency = "high" then BadgeVariant.high
  else if jsToLower urgency = "medium" then BadgeVariant.medium
  else if jsToLower urgency = "low" then BadgeVariant.low
  else BadgeVariant.medium

/-- Claim C9 (counterexample): at the urgency-derived call site, an urgency
value outside the recognised set yields the `medium` variant, which is not
the default variant. -/
theorem priorityVariant_unrecognized_cex :
    getPriorityVariant "emergency" = BadgeVariant.medium
    ∧ getPriorityVariant "emergency" ≠ BadgeVariant.default := by
  refine ⟨?_, ?_⟩ <;> decide

/-- Claim C9 (amended): the Badge component maps its closed set of named
variants to fixed styles and applies the default variant's style whenever
no variant is given; at the status-derived call site an unrecognised status
yields the default variant, while at the urgency-derived call site an
unrecognised urgency yields the `medium` variant (not the default). -/
theorem badge_variant_spec (v : BadgeVariant) (s u : String)
    (hs : jsToLower s ∉ (["scheduled", "confirmed", "cancelled", "completed",
        "in_progress", "checked_in"] : List String))
    (hu : jsToLower u ∉ (["urgent", "high", "medium", "low"] : List String)) :
    badgeClass none = badgeVariantClass BadgeVariant.default
    ∧ badgeClass (some v) = badgeVariantClass v
    ∧ getStatusVariant s = BadgeVariant.default
    ∧ getPriorityVariant u = BadgeVariant.medium := by
  simp only [List.mem_cons, List.not_mem_nil, or_false, not_or] at hs hu
  refine ⟨rfl, rfl, ?_, ?_⟩
  · simp [getStatusVariant, hs.1, hs.2.1, hs.2.2.1, hs.2.2.2.1, hs.2.2.2.2.1,
      hs.2.2.2.2.2]
  · simp [getPriorityVariant, hu.1, hu.2.1, hu.2.2.1, hu.2.2.2]

/-- Claim C9 (witness): concrete unrecognised status and urgency values
resolve to the default and medium variants respectively. -/
theorem badge_variant_spec_witness :
    badgeClass none = badgeVariantClass BadgeVariant.default
    ∧ badgeClass (some BadgeVariant.info) = badgeVariantClass BadgeVariant.info
    ∧ getStatusVariant "rescheduled" = BadgeVariant.default
    ∧ getPriorityVariant "routine" = BadgeVariant.medium :=
  badge_variant_spec BadgeVariant.info "rescheduled" "routine" (by decide) (by decide)

/-- The page-envelope metadata of a list response used by the dashboard
aggregation (`resp.total`). -/
structure PageEnvelopeMeta where
  total : Int
deriving DecidableEq, Repr

/-- The fields of the today-overview response read by the dashboard
aggregation; each is optional (the code guards them with `|| 0`). -/
structure TodayOverviewResp where
  total : Option Int
  scheduled : Option Int
  completed : Option Int
deriving DecidableEq, Repr

/-- The dashboard statistics value assembled client-side. -/
structure DashboardStats (α : Type) where
  total_patients : Int
  active_patients : Int
  todays_appointments : Int
  pending_appointments : Int
  completed_appointments : Int
  active_providers : Int
  recent_activities : List α
deriving Repr

/-- JavaScript `x || 0` on an optional number, for counter fields: an
absent value gives 0, a present value gives itself (0 is falsy and also
gives 0). -/
def orZero (x : Option Int) : Int :=
  x.getD 0

/-- `dashboardApi.getStats`: combine the patients list total (used for both
total and active patients, with no active-only filtering), the today
overview counters, and the providers list total, with no activity
tracking (`recent_activities` is the empty list). -/
def dashboardGetStats {α : Type} (patientsResp : PageEnvelopeMeta)
    (appointmentsResp : TodayOverviewResp) (providersResp : PageEnvelopeMeta) :
    DashboardStats α :=
  { total_patients := patientsResp.total
    active_patients := patientsResp.total
    todays_appointments := orZero appointmentsResp.total
    pending_appointments := orZero appointmentsResp.scheduled
    completed_appointments := orZero appointmentsResp.completed
    active_providers := providersResp.total
    recent_activities := [] }

/-- Claim C10: for every combination of backend responses,
`dashboardApi.getStats` returns a value whose `active_patients` equals its
`total_patients` (both the patients list endpoint's `total`), and whose
`recent_activities` is the empty list. -/
theorem dashboardStats_active_equals_total {α : Type} (p : PageEnvelopeMeta)
    (a : TodayOverviewResp) (pr : PageEnvelopeMeta) :
    (dashboardGetStats (α := α) p a pr).active_patients
        = (dashboardGetStats (α := α) p a pr).total_patients
    ∧ (dashboardGetStats (α := α) p a pr).total_patients = p.total
    ∧ (dashboardGetStats (α := α) p a pr).recent_activities = [] :=
  ⟨rfl, rfl, rfl⟩

end EHR
